import Mathlib

set_option linter.unusedVariables false

/-
  Verification development for the pycavy object-file decoding and typed-value
  deserialization core (src/pycavy/compilation.py).

  The embedding models:
  - JSON values as produced by Python json.loads (the subset the object-file
    header format uses: null, booleans, integers, strings without escape
    sequences, arrays, objects in key insertion order);
  - the measurement map produced by CirqRunnable.sample_circuit as an
    association list from qubit index to boolean (keys unique, as produced
    by dict(zip(names, values)));
  - the Deserializer class and its dispatch table (deserialize, split_value,
    deserialize_classical, deserialize_q_bool, deserialize_q_unsigned,
    deserialize_array, deserialize_measured, deserialize_default);
  - ObjectFile.__parse_asm (split at the first newline, lstrip of the comment
    characters, json.loads of the header);
  - the dict comprehension in CirqRunnable.run that assembles the result set.

  Python exceptions are modelled by the PyErr type; fallible code returns
  Except PyErr.
-/

namespace Pycavy

/-- JSON values as decoded by Python json.loads, restricted to the shapes the
object-file header uses.  Object fields are kept in insertion order, as Python
dicts do.  (Floats, escape sequences and non-ASCII details of real JSON are
outside the subset this development needs.) -/
inductive Json where
  | null : Json
  | bool (b : Bool) : Json
  | num (n : Int) : Json
  | str (s : String) : Json
  | arr (items : List Json) : Json
  | obj (fields : List (String × Json)) : Json

/-- Python exceptions raised (or propagated) by the modelled code.
`keyError` carries the offending dictionary key, as Python KeyError does;
`notImplementedError`, `valueError` (tuple-unpacking failure),
`stopIteration`, `typeError` and `attributeError` carry nothing, as the bare
`raise NotImplementedError` etc. do; `jsonDecodeError` stands for
json.JSONDecodeError. -/
inductive PyErr where
  | keyError (key : Json) : PyErr
  | typeError : PyErr
  | stopIteration : PyErr
  | attributeError : PyErr
  | notImplementedError : PyErr
  | valueError : PyErr
  | jsonDecodeError : PyErr

/-- The measurement map: qubit index → observed boolean, one entry per
measured qubit, keys unique (built by dict(zip(names, values)) in
CirqRunnable.sample_circuit). -/
def MeasMap := List (Nat × Bool)

/-- Python dict lookup on the measurement map (first matching key). -/
def dictGet (m : MeasMap) (k : Nat) : Option Bool :=
  (List.find? (fun p => p.1 == k) m).map (fun p => p.2)

/-- The read `self.measurements[qb]`.  Keys of the map are ints; an int key
looks up the entry (Python bools hash like 0/1, so a bool key does too); other
hashable keys are simply absent and raise KeyError carrying the key; unhashable
keys (lists, dicts) raise TypeError. -/
def measLookup (m : MeasMap) (key : Json) : Except PyErr Bool :=
  match key with
  | .num (Int.ofNat q) =>
      match dictGet m q with
      | some b => .ok b
      | none => .error (.keyError key)
  | .bool b =>
      match dictGet m (cond b 1 0) with
      | some v => .ok v
      | none => .error (.keyError key)
  | .num (Int.negSucc _) => .error (.keyError key)
  | .str _ => .error (.keyError key)
  | .null => .error (.keyError key)
  | .arr _ => .error .typeError
  | .obj _ => .error .typeError

/-- Deserializer.split_value: `next(iter(value.items()))` — the first
key-value pair of the dict; StopIteration on an empty dict; AttributeError
when the value is not a dict (no .items method). -/
def split_value (value : Json) : Except PyErr (String × Json) :=
  match value with
  | .obj (kv :: _) => .ok kv
  | .obj [] => .error .stopIteration
  | _ => .error .attributeError

/-- Deserializer.deserialize_classical: returns the data unchanged. -/
def deserialize_classical (data : Json) : Except PyErr Json :=
  .ok data

/-- Deserializer.deserialize_q_bool: `bool(self.measurements[data])`. -/
def deserialize_q_bool (m : MeasMap) (data : Json) : Except PyErr Json :=
  (measLookup m data).map Json.bool

/-- The loop `for i, bit in enumerate(bits): num += (1 << i) * bit`,
with accumulator `num` and index `i` threaded exactly as in the source. -/
def qUnsignedGo : Nat → Nat → List Bool → Nat
  | num, _, [] => num
  | num, i, bit :: rest => qUnsignedGo (num + (1 <<< i) * (cond bit 1 0)) (i + 1) rest

/-- Deserializer.deserialize_q_unsigned on the list of looked-up bits:
`num = 0; for i, bit in enumerate(bits): num += (1 << i) * bit`. -/
def qUnsignedNum (bits : List Bool) : Nat :=
  qUnsignedGo 0 0 bits

/-- Deserializer.deserialize_q_unsigned:
`bits = [self.measurements[qb] for qb in data]` followed by the accumulation
loop.  The comprehension evaluates lookups left to right and the first KeyError
propagates.  A non-list payload is not iterable (TypeError). -/
def deserialize_q_unsigned (m : MeasMap) (data : Json) : Except PyErr Json :=
  match data with
  | .arr qbs => (qbs.mapM (measLookup m)).map (fun bits => Json.num (qUnsignedNum bits))
  | _ => .error .typeError

/-- Deserializer.deserialize_default: `raise NotImplementedError`. -/
def deserialize_default (data : Json) : Except PyErr Json :=
  .error .notImplementedError

mutual

/-- Deserializer.deserialize: split_value then dispatch through d_table.
The split and the dispatch are fused into one match so that the recursion
(through Measured payloads and Array items) is structural; the agreement
with split_value — only the first key-value pair matters, an empty mapping
raises StopIteration, a non-mapping raises AttributeError — is recovered
propositionally in the theorems below. -/
def deserialize (m : MeasMap) : Json → Except PyErr Json
  | .obj ((typ, data) :: _) =>
      match typ with
      | "Bool" => deserialize_classical data
      | "Q_Bool" => deserialize_q_bool m data
      | "Q_U8" => deserialize_q_unsigned m data
      | "Q_U16" => deserialize_q_unsigned m data
      | "Q_U32" => deserialize_q_unsigned m data
      | "Array" =>
          match data with
          | .arr items => (deserialize_array m items).map Json.arr
          | _ => .error .typeError
      | "Measured" => deserialize m data
      | _ => deserialize_default data
  | .obj [] => .error .stopIteration
  | _ => .error .attributeError

/-- Deserializer.deserialize_array: `[self.deserialize(item) for item in data]`
— element results in order, first failure propagates, no partial list. -/
def deserialize_array (m : MeasMap) : List Json → Except PyErr (List Json)
  | [] => .ok []
  | item :: rest => do
      let v ← deserialize m item
      let vs ← deserialize_array m rest
      return v :: vs

end

/-- The dict comprehension in CirqRunnable.run:
`{name: des.deserialize(value) for name, value in self.bindings.items()}` —
pairs are processed in insertion order; the first exception raised by
deserialize aborts the whole comprehension with no partial dict. -/
def run_bindings (m : MeasMap) (bindings : List (String × Json)) :
    Except PyErr (List (String × Json)) :=
  bindings.mapM (fun nv => (deserialize m nv.2).map (fun w => (nv.1, w)))

/-- Python str.lstrip with argument a set of characters: here lstrip of the
comment marker characters, which removes every leading occurrence of the
slash character (the argument string of lstrip is a set of characters, so
lstrip of two slashes equals lstrip of one slash). -/
def lstripSlashes (s : String) : String :=
  String.mk (s.data.dropWhile (fun c => c = '/'))

/-- Python str.split with sep a newline and maxsplit 1: none when the string
has no newline (the split would produce a single part, and unpacking two
variables from it raises ValueError), otherwise the part before the first
newline and everything after it, later newlines untouched. -/
def splitOnceNL : List Char → Option (List Char × List Char)
  | [] => none
  | c :: cs =>
      if c = '\n' then some ([], cs)
      else (splitOnceNL cs).map (fun p => (c :: p.1, p.2))

/-- JSON whitespace, as json.loads skips it. -/
def isJsonWs (c : Char) : Bool :=
  c = ' ' || c = '\t' || c = '\n' || c = '\r'

/-- Skip leading JSON whitespace. -/
def skipWs : List Char → List Char
  | [] => []
  | c :: cs => if isJsonWs c then skipWs cs else c :: cs

/-- Consume the expected characters, or fail. -/
def expectChars : List Char → List Char → Except PyErr (List Char)
  | [], input => .ok input
  | e :: es, c :: cs => if c = e then expectChars es cs else .error .jsonDecodeError
  | _ :: _, [] => .error .jsonDecodeError

/-- Consume a run of decimal digits (at least one) into a number. -/
def parseDigits : List Char → Nat → Except PyErr (Nat × List Char)
  | [], _ => .error .jsonDecodeError
  | c :: cs, acc =>
      if c.isDigit then
        match cs with
        | [] => .ok (10 * acc + (c.toNat - 48), [])
        | d :: _ =>
            if d.isDigit then parseDigits cs (10 * acc + (c.toNat - 48))
            else .ok (10 * acc + (c.toNat - 48), cs)
      else .error .jsonDecodeError

/-- Consume the remainder of a string literal (opening quote already
consumed) up to the closing quote.  Escape sequences are outside the subset
this development models and are rejected. -/
def parseStrBody : List Char → Except PyErr (String × List Char)
  | [] => .error .jsonDecodeError
  | c :: cs =>
      if c = '"' then .ok ("", cs)
      else if c = '\\' then .error .jsonDecodeError
      else (parseStrBody cs).map (fun p => (String.mk (c :: p.1.data), p.2))

mutual

/-- One JSON value (fuel-indexed recursive descent, model of json.loads on
the subset of JSON the object-file header uses: null, true, false, integers,
escape-free strings, arrays, objects). -/
def parseJsonVal : Nat → List Char → Except PyErr (Json × List Char)
  | 0, _ => .error .jsonDecodeError
  | fuel + 1, input =>
      match skipWs input with
      | [] => .error .jsonDecodeError
      | c :: cs =>
          if c = 'n' then (expectChars ['u', 'l', 'l'] cs).map (fun rest => (Json.null, rest))
          else if c = 't' then (expectChars ['r', 'u', 'e'] cs).map (fun rest => (Json.bool true, rest))
          else if c = 'f' then (expectChars ['a', 'l', 's', 'e'] cs).map (fun rest => (Json.bool false, rest))
          else if c = '-' then (parseDigits cs 0).map (fun p => (Json.num (-(p.1 : Int)), p.2))
          else if c.isDigit then (parseDigits (c :: cs) 0).map (fun p => (Json.num (p.1 : Int), p.2))
          else if c = '"' then (parseStrBody cs).map (fun p => (Json.str p.1, p.2))
          else if c = '[' then
            match skipWs cs with
            | ']' :: rest => .ok (Json.arr [], rest)
            | other => (parseJsonArrItems fuel other).map (fun p => (Json.arr p.1, p.2))
          else if c = '\x7b' then
            match skipWs cs with
            | '\x7d' :: rest => .ok (Json.obj [], rest)
            | other => (parseJsonObjItems fuel other).map (fun p => (Json.obj p.1, p.2))
          else .error .jsonDecodeError

/-- The elements of a non-empty JSON array, comma-separated, up to the
closing bracket. -/
def parseJsonArrItems : Nat → List Char → Except PyErr (List Json × List Char)
  | 0, _ => .error .jsonDecodeError
  | fuel + 1, input => do
      let (v, rest) ← parseJsonVal fuel input
      match skipWs rest with
      | ']' :: rest2 => .ok ([v], rest2)
      | ',' :: rest2 =>
          (parseJsonArrItems fuel rest2).map (fun p => (v :: p.1, p.2))
      | _ => .error .jsonDecodeError

/-- The fields of a non-empty JSON object, comma-separated
string-colon-value pairs, up to the closing brace. -/
def parseJsonObjItems : Nat → List Char → Except PyErr (List (String × Json) × List Char)
  | 0, _ => .error .jsonDecodeError
  | fuel + 1, input =>
      match skipWs input with
      | '"' :: cs => do
          let (key, rest) ← parseStrBody cs
          match skipWs rest with
          | ':' :: rest2 => do
              let (v, rest3) ← parseJsonVal fuel rest2
              match skipWs rest3 with
              | '\x7d' :: rest4 => .ok ([(key, v)], rest4)
              | ',' :: rest4 =>
                  (parseJsonObjItems fuel rest4).map (fun p => ((key, v) :: p.1, p.2))
              | _ => .error .jsonDecodeError
          | _ => .error .jsonDecodeError
      | _ => .error .jsonDecodeError

end

/-- Model of Python json.loads on the JSON subset the header format uses:
parse one value, allow trailing whitespace, and require the whole input to be
consumed; any malformed input raises a decode error. -/
def jsonLoads (s : String) : Except PyErr Json :=
  match parseJsonVal (s.data.length + 2) s.data with
  | .error e => .error e
  | .ok (j, rest) => if skipWs rest = [] then .ok j else .error .jsonDecodeError

/-- ObjectFile.__parse_asm:
`bindings, qasm = qasm.split(sep=CHR(10), maxsplit=1)` followed by
`bindings = json.loads(bindings.lstrip(COMMENT))`.  When the input has no
newline the two-variable unpacking raises ValueError; then the first line is
stripped of all leading comment characters and handed to json.loads, whose
decode error propagates; on success the decoded header and the verbatim
remainder are returned. -/
def parse_asm (qasm : String) : Except PyErr (Json × String) :=
  match splitOnceNL qasm.data with
  | none => .error .valueError
  | some (first, rest) =>
      (jsonLoads (lstripSlashes (String.mk first))).map
        (fun j => (j, String.mk rest))

/-- The state of a Deserializer object: its measurements attribute (the only
attribute the dispatch handlers touch). -/
structure DeserializerState where
  measurements : MeasMap

/-- The read `self.measurements[qb]` as an operation on the Deserializer
state: it returns the looked-up value (or raises KeyError) and leaves the
state as it was — dict subscription does not write. -/
def measLookupSt (s : DeserializerState) (key : Json) :
    Except PyErr Bool × DeserializerState :=
  (measLookup s.measurements key, s)

/-- The list comprehension `[self.measurements[qb] for qb in data]` with the
state threaded through each lookup in order. -/
def measLookupsSt (s : DeserializerState) :
    List Json → Except PyErr (List Bool) × DeserializerState
  | [] => (.ok [], s)
  | k :: ks =>
      match measLookupSt s k with
      | (.error e, s1) => (.error e, s1)
      | (.ok b, s1) =>
          match measLookupsSt s1 ks with
          | (.error e, s2) => (.error e, s2)
          | (.ok bs, s2) => (.ok (b :: bs), s2)

/-- deserialize_q_bool with the Deserializer state threaded explicitly. -/
def deserialize_q_boolSt (s : DeserializerState) (data : Json) :
    Except PyErr Json × DeserializerState :=
  match measLookupSt s data with
  | (r, s1) => (r.map Json.bool, s1)

/-- deserialize_q_unsigned with the Deserializer state threaded explicitly. -/
def deserialize_q_unsignedSt (s : DeserializerState) (data : Json) :
    Except PyErr Json × DeserializerState :=
  match data with
  | .arr qbs =>
      match measLookupsSt s qbs with
      | (r, s1) => (r.map (fun bits => Json.num (qUnsignedNum bits)), s1)
  | _ => (.error .typeError, s)

mutual

/-- Deserializer.deserialize with the Deserializer state threaded through
every operation that touches self, mirroring the call structure of the
source handler by handler. -/
def deserializeSt (s : DeserializerState) : Json → Except PyErr Json × DeserializerState
  | .obj ((typ, data) :: _) =>
      match typ with
      | "Bool" => (deserialize_classical data, s)
      | "Q_Bool" => deserialize_q_boolSt s data
      | "Q_U8" => deserialize_q_unsignedSt s data
      | "Q_U16" => deserialize_q_unsignedSt s data
      | "Q_U32" => deserialize_q_unsignedSt s data
      | "Array" =>
          match data with
          | .arr items =>
              match deserialize_arraySt s items with
              | (r, s1) => (r.map Json.arr, s1)
          | _ => (.error .typeError, s)
      | "Measured" => deserializeSt s data
      | _ => (deserialize_default data, s)
  | .obj [] => (.error .stopIteration, s)
  | _ => (.error .attributeError, s)

/-- Deserializer.deserialize_array with the state threaded through the
element-by-element comprehension. -/
def deserialize_arraySt (s : DeserializerState) :
    List Json → Except PyErr (List Json) × DeserializerState
  | [] => (.ok [], s)
  | item :: rest =>
      match deserializeSt s item with
      | (.error e, s1) => (.error e, s1)
      | (.ok v, s1) =>
          match deserialize_arraySt s1 rest with
          | (.error e, s2) => (.error e, s2)
          | (.ok vs, s2) => (.ok (v :: vs), s2)

end

/-- CirqRunnable.run's comprehension with the Deserializer state threaded
through each entry's deserialization in insertion order. -/
def run_bindingsSt (s : DeserializerState) :
    List (String × Json) → Except PyErr (List (String × Json)) × DeserializerState
  | [] => (.ok [], s)
  | (n, v) :: rest =>
      match deserializeSt s v with
      | (.error e, s1) => (.error e, s1)
      | (.ok w, s1) =>
          match run_bindingsSt s1 rest with
          | (.error e, s2) => (.error e, s2)
          | (.ok ws, s2) => (.ok ((n, w) :: ws), s2)

/-- The payload of a Q_U8, Q_U16 or Q_U32 binding for a list of qubit
indices: the JSON array of those indices. -/
def qList (qs : List Nat) : Json :=
  Json.arr (qs.map (fun q => Json.num (Int.ofNat q)))

/-- A list of booleans read as a little-endian natural number: bit k of the
result is element k of the list. -/
def bitsLE : List Bool → Nat
  | [] => 0
  | b :: rest => (cond b 1 0) + 2 * bitsLE rest

/-- Following the words of the spec (the header line after stripping a fixed
single-character comment prefix): remove one leading comment-marker character
from the line.  This is the reading the claim asserts; the source instead
removes every leading occurrence of the marker character via lstrip. -/
def stripOneCommentChar (s : String) : String :=
  match s.data with
  | '/' :: rest => String.mk rest
  | other => String.mk other

/-! Helper lemmas. -/

theorem except_bind_ok {ε α β : Type} (a : α) (f : α → Except ε β) :
    ((Except.ok a : Except ε α) >>= f) = f a := rfl

theorem except_bind_error {ε α β : Type} (e : ε) (f : α → Except ε β) :
    ((Except.error e : Except ε α) >>= f) = Except.error e := rfl

theorem except_map_ok {ε α β : Type} (f : α → β) (a : α) :
    (Except.ok a : Except ε α).map f = Except.ok (f a) := rfl

theorem except_map_error {ε α β : Type} (f : α → β) (e : ε) :
    (Except.error e : Except ε α).map f = Except.error e := rfl

theorem qUnsignedGo_eq (bits : List Bool) :
    ∀ num i, qUnsignedGo num i bits = num + 2 ^ i * bitsLE bits := by
  induction bits with
  | nil => intro num i; simp [qUnsignedGo, bitsLE]
  | cons b rest ih =>
      intro num i
      rw [qUnsignedGo, ih, bitsLE, Nat.one_shiftLeft]
      ring

theorem qUnsignedNum_eq_bitsLE (bits : List Bool) : qUnsignedNum bits = bitsLE bits := by
  rw [qUnsignedNum, qUnsignedGo_eq]
  simp

theorem bitsLE_map_sum (f : Nat → Bool) :
    ∀ qs : List Nat, bitsLE (qs.map f) =
      ∑ i ∈ Finset.range qs.length, (cond (f (qs.getD i 0)) 1 0) * 2 ^ i := by
  intro qs
  induction qs with
  | nil => simp [bitsLE]
  | cons q qt ih =>
      rw [List.map_cons, bitsLE, List.length_cons, Finset.sum_range_succ']
      have step : ∑ i ∈ Finset.range qt.length,
          (cond (f ((q :: qt).getD (i + 1) 0)) 1 0) * 2 ^ (i + 1)
          = 2 * ∑ i ∈ Finset.range qt.length, (cond (f (qt.getD i 0)) 1 0) * 2 ^ i := by
        rw [Finset.mul_sum]
        refine Finset.sum_congr rfl (fun i _ => ?_)
        rw [List.getD_cons_succ]
        ring
      rw [step, List.getD_cons_zero, ih]
      ring

theorem mapM_measLookup_ok (m : MeasMap) :
    ∀ qs : List Nat, (∀ q ∈ qs, (dictGet m q).isSome) →
      List.mapM (measLookup m) (qs.map (fun q => Json.num (Int.ofNat q))) =
        Except.ok (qs.map (fun q => (dictGet m q).getD false)) := by
  intro qs
  induction qs with
  | nil => intro _; rfl
  | cons q qt ih =>
      intro h
      obtain ⟨b, hb⟩ := Option.isSome_iff_exists.mp (h q (by simp))
      rw [List.map_cons, List.map_cons, List.mapM_cons]
      rw [show measLookup m (Json.num (Int.ofNat q)) = Except.ok b from by
        simp [measLookup, hb]]
      rw [except_bind_ok, ih (fun x hx => h x (List.mem_cons_of_mem _ hx))]
      simp [hb]

theorem deserialize_on_q_unsigned_tags (m : MeasMap) (d : Json) :
    ∀ w ∈ (["Q_U8", "Q_U16", "Q_U32"] : List String),
      ∀ tail : List (String × Json),
        deserialize m (Json.obj ((w, d) :: tail)) = deserialize_q_unsigned m d := by
  intro w hw tail
  rcases (by simpa using hw : w = "Q_U8" ∨ w = "Q_U16" ∨ w = "Q_U32") with rfl | rfl | rfl <;>
    (rw [deserialize.eq_def]; rfl)

/-! C1. -/

/-- C1: deserializing a Q_U8, Q_U16 or Q_U32 tagged value whose payload is a
qubit-index list qs, against a measurement map that contains every index of
qs, yields the unsigned integer whose bit i is the measurement of qs[i] —
little-endian by position in qs, identical for all three width tags, with
exactly as many bits as indices and no overflow check against the declared
width (the hypothesis puts no bound on the length of qs). -/
theorem c1_q_unsigned_little_endian (m : MeasMap) (qs : List Nat)
    (h : ∀ q ∈ qs, (dictGet m q).isSome) :
    ∀ w ∈ (["Q_U8", "Q_U16", "Q_U32"] : List String),
      deserialize m (Json.obj [(w, qList qs)]) =
        Except.ok (Json.num (Int.ofNat (∑ i ∈ Finset.range qs.length,
          (cond ((dictGet m (qs.getD i 0)).getD false) 1 0) * 2 ^ i))) := by
  intro w hw
  rw [deserialize_on_q_unsigned_tags m (qList qs) w hw []]
  rw [show deserialize_q_unsigned m (qList qs)
        = (List.mapM (measLookup m) (qs.map (fun q => Json.num (Int.ofNat q)))).map
            (fun bits => Json.num (Int.ofNat (qUnsignedNum bits))) from rfl]
  rw [mapM_measLookup_ok m qs h, except_map_ok, qUnsignedNum_eq_bitsLE, bitsLE_map_sum]

/-- Witness for C1 at the spec's concrete scenario: qs = [3,4,5] and
measurements 3↦true, 4↦false, 5↦true give 5 under each width tag. -/
theorem c1_witness :
    deserialize [(3, true), (4, false), (5, true)] (Json.obj [("Q_U8", qList [3, 4, 5])])
      = Except.ok (Json.num (Int.ofNat 5)) ∧
    deserialize [(3, true), (4, false), (5, true)] (Json.obj [("Q_U16", qList [3, 4, 5])])
      = Except.ok (Json.num (Int.ofNat 5)) ∧
    deserialize [(3, true), (4, false), (5, true)] (Json.obj [("Q_U32", qList [3, 4, 5])])
      = Except.ok (Json.num (Int.ofNat 5)) := by
  have key := c1_q_unsigned_little_endian [(3, true), (4, false), (5, true)] [3, 4, 5]
    (by decide)
  have sum5 : (∑ i ∈ Finset.range ([3, 4, 5] : List Nat).length,
      (cond ((dictGet [(3, true), (4, false), (5, true)] (([3, 4, 5] : List Nat).getD i 0)).getD false) 1 0) * 2 ^ i) = 5 := by
    decide
  refine ⟨?_, ?_, ?_⟩
  · rw [key "Q_U8" (by simp), sum5]
  · rw [key "Q_U16" (by simp), sum5]
  · rw [key "Q_U32" (by simp), sum5]

/-! C2. -/

/-- C2 (amended): deserializing a binding value that references a qubit index
q absent from the measurement map fails with the key-lookup error carrying the
qubit index q — it never returns a default value such as false or 0; the
surfaced error does not carry the binding name. -/
theorem c2_missing_qubit_keyError (m : MeasMap) (q : Nat) (h : dictGet m q = none) :
    deserialize m (Json.obj [("Q_Bool", Json.num (Int.ofNat q))])
      = Except.error (PyErr.keyError (Json.num (Int.ofNat q))) ∧
    ∀ w ∈ (["Q_U8", "Q_U16", "Q_U32"] : List String), ∀ qt : List Nat,
      deserialize m (Json.obj [(w, qList (q :: qt))])
        = Except.error (PyErr.keyError (Json.num (Int.ofNat q))) := by
  constructor
  · rw [deserialize.eq_def]
    show deserialize_q_bool m (Json.num (Int.ofNat q)) = _
    simp [deserialize_q_bool, measLookup, h, except_map_error]
  · intro w hw qt
    rw [deserialize_on_q_unsigned_tags m (qList (q :: qt)) w hw []]
    rw [show deserialize_q_unsigned m (qList (q :: qt))
          = (List.mapM (measLookup m)
              ((q :: qt).map (fun x => Json.num (Int.ofNat x)))).map
                (fun bits => Json.num (Int.ofNat (qUnsignedNum bits))) from rfl]
    rw [List.map_cons, List.mapM_cons]
    rw [show measLookup m (Json.num (Int.ofNat q))
          = Except.error (PyErr.keyError (Json.num (Int.ofNat q))) from by
      simp [measLookup, h]]
    rw [except_bind_error, except_map_error]

/-- Witness for C2 at the spec's concrete scenario 4: qubit 7 referenced,
measurement map empty. -/
theorem c2_witness :
    deserialize [] (Json.obj [("Q_Bool", Json.num (Int.ofNat 7))])
      = Except.error (PyErr.keyError (Json.num (Int.ofNat 7))) ∧
    deserialize [] (Json.obj [("Q_U8", qList [7, 8])])
      = Except.error (PyErr.keyError (Json.num (Int.ofNat 7))) :=
  ⟨(c2_missing_qubit_keyError [] 7 rfl).1,
   (c2_missing_qubit_keyError [] 7 rfl).2 "Q_U8" (by simp) [8]⟩

/-- Counterexample for C2 as stated: the claim says the error names the
binding name, but two bindings that differ only in their name surface the
very same error value, a KeyError carrying only the qubit index — the error
cannot name the binding. -/
theorem c2_counterexample :
    run_bindings [] [("first_name", Json.obj [("Q_Bool", Json.num 7)])]
      = Except.error (PyErr.keyError (Json.num 7)) ∧
    run_bindings [] [("second_name", Json.obj [("Q_Bool", Json.num 7)])]
      = Except.error (PyErr.keyError (Json.num 7)) :=
  ⟨rfl, rfl⟩

/-! C3. -/

/-- C3 (amended): deserializing a tagged value whose tag is outside the known
set fails with the bare NotImplementedError raised by deserialize_default —
it never silently returns the payload or a null value; the error carries no
tag name. -/
theorem c3_unknown_tag_notImplemented (m : MeasMap) (t : String) (d : Json)
    (h : t ∉ (["Bool", "Q_Bool", "Q_U8", "Q_U16", "Q_U32", "Array", "Measured"] :
      List String)) :
    deserialize m (Json.obj [(t, d)]) = Except.error PyErr.notImplementedError := by
  rw [deserialize.eq_def]
  simp only [List.mem_cons, List.not_mem_nil, or_false, not_or] at h
  show (match t with
    | "Bool" => deserialize_classical d
    | "Q_Bool" => deserialize_q_bool m d
    | "Q_U8" => deserialize_q_unsigned m d
    | "Q_U16" => deserialize_q_unsigned m d
    | "Q_U32" => deserialize_q_unsigned m d
    | "Array" =>
        match d with
        | Json.arr items => Except.map Json.arr (deserialize_array m items)
        | _ => Except.error PyErr.typeError
    | "Measured" => deserialize m d
    | _ => deserialize_default d) = Except.error PyErr.notImplementedError
  split
  · exact absurd rfl h.1
  · exact absurd rfl h.2.1
  · exact absurd rfl h.2.2.1
  · exact absurd rfl h.2.2.2.1
  · exact absurd rfl h.2.2.2.2.1
  · exact absurd rfl h.2.2.2.2.2.1
  · exact absurd rfl h.2.2.2.2.2.2
  · rfl

/-- Witness for C3 at a concrete unknown tag. -/
theorem c3_witness :
    "Quux" ∉ (["Bool", "Q_Bool", "Q_U8", "Q_U16", "Q_U32", "Array", "Measured"] :
      List String) ∧
    deserialize [] (Json.obj [("Quux", Json.num 1)])
      = Except.error PyErr.notImplementedError :=
  ⟨by decide, c3_unknown_tag_notImplemented [] "Quux" (Json.num 1) (by decide)⟩

/-- Counterexample for C3 as stated: the claim says the error is surfaced
with the offending tag name, but two distinct unknown tags produce the very
same bare NotImplementedError, which carries nothing. -/
theorem c3_counterexample :
    deserialize [] (Json.obj [("Foo", Json.null)])
      = Except.error PyErr.notImplementedError ∧
    deserialize [] (Json.obj [("Bar", Json.null)])
      = Except.error PyErr.notImplementedError :=
  ⟨rfl, rfl⟩

/-! C8. -/

/-- C8: the Measured wrapper is transparent — deserializing Measured(v)
equals deserializing v, for every binding value and measurement map. -/
theorem c8_measured_transparent (m : MeasMap) (v : Json) :
    deserialize m (Json.obj [("Measured", v)]) = deserialize m v := rfl

/-! C10. -/

/-- C10: split_value takes only the first key-value pair of a tagged value,
so deserialize ignores every pair after the first (the single-key-object
requirement is never validated), and an empty mapping fails with the
unstructured StopIteration of next(iter(...)) rather than a named decode
error. -/
theorem c10_first_pair_only (m : MeasMap) (t : String) (d : Json)
    (rest : List (String × Json)) :
    split_value (Json.obj ((t, d) :: rest)) = Except.ok (t, d) ∧
    deserialize m (Json.obj ((t, d) :: rest)) = deserialize m (Json.obj [(t, d)]) ∧
    split_value (Json.obj []) = Except.error PyErr.stopIteration ∧
    deserialize m (Json.obj []) = Except.error PyErr.stopIteration := by
  refine ⟨rfl, ?_, rfl, ?_⟩
  · rw [deserialize.eq_def, deserialize.eq_def]
  · rw [deserialize.eq_def]

/-! C7. -/

theorem deserialize_array_nil (m : MeasMap) : deserialize_array m [] = Except.ok [] := by
  rw [deserialize_array.eq_def]

theorem deserialize_array_cons (m : MeasMap) (item : Json) (rest : List Json) :
    deserialize_array m (item :: rest) =
      (deserialize m item) >>= fun v =>
        (deserialize_array m rest) >>= fun vs => Except.ok (v :: vs) := by
  rw [deserialize_array.eq_def]; rfl

theorem deserialize_array_ok_elementwise (m : MeasMap) :
    ∀ vs ws, deserialize_array m vs = Except.ok ws →
      ws.length = vs.length ∧
      ∀ i, i < vs.length →
        deserialize m (vs.getD i Json.null) = Except.ok (ws.getD i Json.null) := by
  intro vs
  induction vs with
  | nil =>
      intro ws h
      rw [deserialize_array_nil] at h
      injection h with h
      subst h
      exact ⟨rfl, fun i hi => absurd hi (by simp)⟩
  | cons item rest ih =>
      intro ws h
      rw [deserialize_array_cons] at h
      cases hv : deserialize m item with
      | error e => rw [hv, except_bind_error] at h; cases h
      | ok v =>
          rw [hv, except_bind_ok] at h
          cases hr : deserialize_array m rest with
          | error e => rw [hr, except_bind_error] at h; cases h
          | ok vs' =>
              rw [hr, except_bind_ok] at h
              injection h with h
              subst h
              obtain ⟨hlen, helem⟩ := ih vs' hr
              refine ⟨by simp [hlen], fun i hi => ?_⟩
              cases i with
              | zero => simpa using hv
              | succ k =>
                  rw [List.getD_cons_succ, List.getD_cons_succ]
                  exact helem k (by simpa using hi)

theorem deserialize_array_append_error (m : MeasMap) (v0 : Json) (e : PyErr)
    (post : List Json) (hv : deserialize m v0 = Except.error e) :
    ∀ pre wpre, deserialize_array m pre = Except.ok wpre →
      deserialize_array m (pre ++ v0 :: post) = Except.error e := by
  intro pre
  induction pre with
  | nil =>
      intro wpre h
      rw [List.nil_append, deserialize_array_cons, hv, except_bind_error]
  | cons p pt ih =>
      intro wpre h
      rw [deserialize_array_cons] at h
      cases hp : deserialize m p with
      | error e2 => rw [hp, except_bind_error] at h; cases h
      | ok w =>
          rw [hp, except_bind_ok] at h
          cases hr : deserialize_array m pt with
          | error e2 => rw [hr, except_bind_error] at h; cases h
          | ok ws =>
              rw [List.cons_append, deserialize_array_cons, hp, except_bind_ok,
                ih ws hr, except_bind_error]

theorem deserialize_array_tag (m : MeasMap) (vs : List Json) :
    deserialize m (Json.obj [("Array", Json.arr vs)])
      = (deserialize_array m vs).map Json.arr := by
  rw [deserialize.eq_def]; rfl

/-- C7: deserializing Array([v1..vk]) returns the ordered list of the
elementwise deserializations — element i of the result is the
deserialization of element i of the payload — and it fails with the first
element error whenever any element fails, never returning a partial array. -/
theorem c7_array_elementwise :
    (∀ (m : MeasMap) (vs ws : List Json), deserialize_array m vs = Except.ok ws →
        deserialize m (Json.obj [("Array", Json.arr vs)]) = Except.ok (Json.arr ws) ∧
        ws.length = vs.length ∧
        ∀ i, i < vs.length →
          deserialize m (vs.getD i Json.null) = Except.ok (ws.getD i Json.null)) ∧
    (∀ (m : MeasMap) (pre : List Json) (v : Json) (post : List Json) (e : PyErr)
        (wpre : List Json), deserialize_array m pre = Except.ok wpre →
        deserialize m v = Except.error e →
        deserialize m (Json.obj [("Array", Json.arr (pre ++ v :: post))])
          = Except.error e) := by
  constructor
  · intro m vs ws h
    obtain ⟨hlen, helem⟩ := deserialize_array_ok_elementwise m vs ws h
    exact ⟨by rw [deserialize_array_tag, h, except_map_ok], hlen, helem⟩
  · intro m pre v post e wpre hpre hv
    rw [deserialize_array_tag,
      deserialize_array_append_error m v e post hv pre wpre hpre, except_map_error]

/-- Witness for C7 at the spec's concrete scenario 3 (a Bool and a Q_Bool
element, measurements 0↦false) and at a failing array whose second element
references an unmeasured qubit. -/
theorem c7_witness :
    deserialize [(0, false)] (Json.obj [("Array", Json.arr
        [Json.obj [("Bool", Json.num 1)], Json.obj [("Q_Bool", Json.num 0)]])])
      = Except.ok (Json.arr [Json.num 1, Json.bool false]) ∧
    deserialize [] (Json.obj [("Array", Json.arr
        ([Json.obj [("Bool", Json.num 1)]] ++
          Json.obj [("Q_Bool", Json.num 9)] :: [Json.obj [("Bool", Json.null)]]))])
      = Except.error (PyErr.keyError (Json.num 9)) :=
  ⟨(c7_array_elementwise.1 [(0, false)]
      [Json.obj [("Bool", Json.num 1)], Json.obj [("Q_Bool", Json.num 0)]]
      [Json.num 1, Json.bool false] rfl).1,
   c7_array_elementwise.2 [] [Json.obj [("Bool", Json.num 1)]]
      (Json.obj [("Q_Bool", Json.num 9)]) [Json.obj [("Bool", Json.null)]]
      (PyErr.keyError (Json.num 9)) [Json.num 1] rfl rfl⟩

/-! C6. -/

theorem run_bindings_nil (m : MeasMap) : run_bindings m [] = Except.ok [] := rfl

theorem run_bindings_cons (m : MeasMap) (n : String) (v : Json)
    (bs : List (String × Json)) :
    run_bindings m ((n, v) :: bs) =
      ((deserialize m v).map (fun w => (n, w))) >>= fun p =>
        (run_bindings m bs) >>= fun ps => Except.ok (p :: ps) := by
  simp only [run_bindings]
  rw [List.mapM_cons]
  rfl

theorem run_bindings_ok_elementwise (m : MeasMap) :
    ∀ bs ws, run_bindings m bs = Except.ok ws →
      ws.length = bs.length ∧
      ∀ i, i < bs.length →
        (ws.getD i ("", Json.null)).1 = (bs.getD i ("", Json.null)).1 ∧
        deserialize m (bs.getD i ("", Json.null)).2
          = Except.ok ((ws.getD i ("", Json.null)).2) := by
  intro bs
  induction bs with
  | nil =>
      intro ws h
      rw [run_bindings_nil] at h
      injection h with h
      subst h
      exact ⟨rfl, fun i hi => absurd hi (by simp)⟩
  | cons nv rest ih =>
      obtain ⟨n, v⟩ := nv
      intro ws h
      rw [run_bindings_cons] at h
      cases hv : deserialize m v with
      | error e => rw [hv, except_map_error, except_bind_error] at h; cases h
      | ok w =>
          rw [hv, except_map_ok, except_bind_ok] at h
          cases hr : run_bindings m rest with
          | error e => rw [hr, except_bind_error] at h; cases h
          | ok ws' =>
              rw [hr, except_bind_ok] at h
              injection h with h
              subst h
              obtain ⟨hlen, helem⟩ := ih ws' hr
              refine ⟨by simp [hlen], fun i hi => ?_⟩
              cases i with
              | zero => exact ⟨rfl, by simpa using hv⟩
              | succ k =>
                  rw [List.getD_cons_succ, List.getD_cons_succ]
                  exact helem k (by simpa using hi)

theorem run_bindings_append_error (m : MeasMap) (n : String) (v : Json) (e : PyErr)
    (post : List (String × Json)) (hv : deserialize m v = Except.error e) :
    ∀ pre wpre, run_bindings m pre = Except.ok wpre →
      run_bindings m (pre ++ (n, v) :: post) = Except.error e := by
  intro pre
  induction pre with
  | nil =>
      intro wpre h
      rw [List.nil_append, run_bindings_cons, hv, except_map_error, except_bind_error]
  | cons p pt ih =>
      obtain ⟨pn, pv⟩ := p
      intro wpre h
      rw [run_bindings_cons] at h
      cases hp : deserialize m pv with
      | error e2 => rw [hp, except_map_error, except_bind_error] at h; cases h
      | ok w =>
          rw [hp, except_map_ok, except_bind_ok] at h
          cases hr : run_bindings m pt with
          | error e2 => rw [hr, except_bind_error] at h; cases h
          | ok ws =>
              rw [List.cons_append, run_bindings_cons, hp, except_map_ok,
                except_bind_ok, ih ws hr, except_bind_error]

/-- C6 (amended): the run comprehension assembles, for each (name, value)
pair in insertion order, the entry name ↦ deserialize(value, measurements):
an entry that deserializes to w is prepended as (name, w), positions and
names are preserved pointwise, and if any entry's deserialization fails the
whole assembly fails with the first error encountered (the propagated error
is not annotated with the binding name) and no partial result set is
returned. -/
theorem c6_run_assembles :
    (∀ (m : MeasMap) (n : String) (v : Json) (w : Json) (bs ws : List (String × Json)),
        deserialize m v = Except.ok w → run_bindings m bs = Except.ok ws →
        run_bindings m ((n, v) :: bs) = Except.ok ((n, w) :: ws)) ∧
    (∀ (m : MeasMap) (bs ws : List (String × Json)), run_bindings m bs = Except.ok ws →
        ws.length = bs.length ∧
        ∀ i, i < bs.length →
          (ws.getD i ("", Json.null)).1 = (bs.getD i ("", Json.null)).1 ∧
          deserialize m (bs.getD i ("", Json.null)).2
            = Except.ok ((ws.getD i ("", Json.null)).2)) ∧
    (∀ (m : MeasMap) (pre : List (String × Json)) (n : String) (v : Json)
        (post : List (String × Json)) (e : PyErr) (wpre : List (String × Json)),
        run_bindings m pre = Except.ok wpre → deserialize m v = Except.error e →
        run_bindings m (pre ++ (n, v) :: post) = Except.error e) := by
  refine ⟨?_, run_bindings_ok_elementwise, ?_⟩
  · intro m n v w bs ws hv hbs
    rw [run_bindings_cons, hv, except_map_ok, except_bind_ok, hbs, except_bind_ok]
  · intro m pre n v post e wpre hpre hv
    exact run_bindings_append_error m n v e post hv pre wpre hpre

/-- Witness for C6 at the spec's concrete scenario 1 (binding x ↦ Bool(true)
with an empty measurement map yields x ↦ true) and at an assembly whose
second entry fails. -/
theorem c6_witness :
    run_bindings [] [("x", Json.obj [("Bool", Json.bool true)])]
      = Except.ok [("x", Json.bool true)] ∧
    run_bindings [] ([("a", Json.obj [("Bool", Json.num 1)])] ++
        ("b", Json.obj [("Q_Bool", Json.num 9)]) :: [("c", Json.obj [("Bool", Json.null)])])
      = Except.error (PyErr.keyError (Json.num 9)) :=
  ⟨c6_run_assembles.1 [] "x" (Json.obj [("Bool", Json.bool true)]) (Json.bool true)
      [] [] rfl rfl,
   c6_run_assembles.2.2 [] [("a", Json.obj [("Bool", Json.num 1)])] "b"
      (Json.obj [("Q_Bool", Json.num 9)]) [("c", Json.obj [("Bool", Json.null)])]
      (PyErr.keyError (Json.num 9)) [("a", Json.num 1)] rfl rfl⟩

/-- Counterexample for C6 as stated: the claim says the propagated error is
annotated with the binding name, but two assemblies that differ only in the
binding name fail with the very same error value, which carries only the
qubit index. -/
theorem c6_counterexample :
    run_bindings [] [("left", Json.obj [("Q_Bool", Json.num 9)])]
      = Except.error (PyErr.keyError (Json.num 9)) ∧
    run_bindings [] [("right", Json.obj [("Q_Bool", Json.num 9)])]
      = Except.error (PyErr.keyError (Json.num 9)) :=
  ⟨rfl, rfl⟩

/-! C4 and C5. -/

theorem splitOnceNL_append (l2 : List Char) :
    ∀ l1 : List Char, '\n' ∉ l1 → splitOnceNL (l1 ++ '\n' :: l2) = some (l1, l2) := by
  intro l1
  induction l1 with
  | nil => intro _; simp [splitOnceNL]
  | cons c cs ih =>
      intro h
      rw [List.cons_append, splitOnceNL]
      rw [if_neg (by simp at h; exact fun hc => h.1 hc.symm)]
      rw [ih (fun hc => h (List.mem_cons_of_mem _ hc))]
      rfl

theorem splitOnceNL_none : ∀ l : List Char, '\n' ∉ l → splitOnceNL l = none := by
  intro l
  induction l with
  | nil => intro _; rfl
  | cons c cs ih =>
      intro h
      rw [splitOnceNL, if_neg (by simp at h; exact fun hc => h.1 hc.symm)]
      rw [ih (fun hc => h (List.mem_cons_of_mem _ hc))]
      rfl

theorem data_append_newline (h b : String) :
    (h ++ "\n" ++ b).data = h.data ++ '\n' :: b.data := by
  rw [String.data_append, String.data_append]
  rw [show ("\n" : String).data = ['\n'] from rfl]
  simp

theorem parse_asm_split (h b : String) (hnl : '\n' ∉ h.data) :
    parse_asm (h ++ "\n" ++ b) = (jsonLoads (lstripSlashes h)).map (fun j => (j, b)) := by
  rw [parse_asm, data_append_newline, splitOnceNL_append b.data h.data hnl]

/-- C4 (amended): for input text containing a line separator, parse splits it
at the FIRST separator; the first line is stripped of every leading
occurrence of the comment character (Python lstrip strips a character set,
not a fixed single-character prefix) and decoded as a JSON value (the
mapping shape is not validated at parse time); the remainder after the first
separator — including all subsequent separators — becomes the body
verbatim. -/
theorem c4_parse_splits (h b : String) (hnl : '\n' ∉ h.data) :
    parse_asm (h ++ "\n" ++ b) = (jsonLoads (lstripSlashes h)).map (fun j => (j, b)) :=
  parse_asm_split h b hnl

/-- Witness for C4 at a concrete object file whose body itself contains a
separator: the body is kept verbatim. -/
theorem c4_witness :
    parse_asm ("//\x7b\"x\":\x7b\"Bool\":true\x7d\x7d" ++ "\n" ++ "OPENQASM 2.0;\nqreg q[1];")
      = Except.ok (Json.obj [("x", Json.obj [("Bool", Json.bool true)])],
          "OPENQASM 2.0;\nqreg q[1];") := by
  rw [c4_parse_splits "//\x7b\"x\":\x7b\"Bool\":true\x7d\x7d" "OPENQASM 2.0;\nqreg q[1];"
    (by decide)]
  rfl

/-- Counterexample for C4 as stated: the source strips ALL leading comment
characters, not a fixed single-character prefix.  On the nominal header
(two comment characters before the JSON) the code decodes successfully,
while the text obtained by stripping a single character is not valid JSON;
likewise with three leading comment characters; and a header whose JSON is
not a mapping is accepted unvalidated. -/
theorem c4_counterexample :
    parse_asm "//\x7b\x7d\nbody" = Except.ok (Json.obj [], "body") ∧
    jsonLoads (stripOneCommentChar "//\x7b\x7d") = Except.error PyErr.jsonDecodeError ∧
    parse_asm "///\x7b\x7d\nbody" = Except.ok (Json.obj [], "body") ∧
    jsonLoads (stripOneCommentChar "///\x7b\x7d") = Except.error PyErr.jsonDecodeError ∧
    parse_asm "//3\nbody" = Except.ok (Json.num 3, "body") :=
  ⟨rfl, rfl, rfl, rfl, rfl⟩

/-- C5 (amended): parse fails with the tuple-unpacking ValueError when the
input has no line separator, and with the JSON decode error when the
stripped header is not valid structured data — in both cases no partial
object is produced (the result is the bare error); these failures carry no
reference to the offending line or field; and a tag not in the known table
is NOT rejected by parse: whenever the stripped header decodes as JSON,
parse succeeds no matter what tags it contains (unknown tags fail only
later, at deserialization). -/
theorem c5_parse_failures :
    (∀ s : String, '\n' ∉ s.data → parse_asm s = Except.error PyErr.valueError) ∧
    (∀ (h b : String) (e : PyErr), '\n' ∉ h.data →
        jsonLoads (lstripSlashes h) = Except.error e →
        parse_asm (h ++ "\n" ++ b) = Except.error e) ∧
    (∀ (h b : String) (j : Json), '\n' ∉ h.data →
        jsonLoads (lstripSlashes h) = Except.ok j →
        parse_asm (h ++ "\n" ++ b) = Except.ok (j, b)) := by
  refine ⟨?_, ?_, ?_⟩
  · intro s hs
    rw [parse_asm, splitOnceNL_none s.data hs]
  · intro h b e hnl hj
    rw [parse_asm_split h b hnl, hj, except_map_error]
  · intro h b j hnl hj
    rw [parse_asm_split h b hnl, hj, except_map_ok]

/-- Witness for C5: a missing separator, a header that is not valid JSON
after stripping, and a header carrying an unknown tag that parses fine. -/
theorem c5_witness :
    parse_asm "OPENQASM 2.0; qreg q[2];" = Except.error PyErr.valueError ∧
    parse_asm ("//notjson" ++ "\n" ++ "body") = Except.error PyErr.jsonDecodeError ∧
    parse_asm ("//\x7b\"z\":\x7b\"Weird\":1\x7d\x7d" ++ "\n" ++ "body")
      = Except.ok (Json.obj [("z", Json.obj [("Weird", Json.num 1)])], "body") :=
  ⟨c5_parse_failures.1 "OPENQASM 2.0; qreg q[2];" (by decide),
   c5_parse_failures.2.1 "//notjson" "body" PyErr.jsonDecodeError (by decide) rfl,
   c5_parse_failures.2.2 "//\x7b\"z\":\x7b\"Weird\":1\x7d\x7d" "body"
      (Json.obj [("z", Json.obj [("Weird", Json.num 1)])]) (by decide) rfl⟩

/-- Counterexample for C5 as stated: a header carrying a tag outside the
known table does not make parse fail — parse succeeds and returns the full
object — and two different separator-less inputs fail with the very same
bare ValueError, which names no line or field. -/
theorem c5_counterexample :
    parse_asm "//\x7b\"x\":\x7b\"Mystery\":7\x7d\x7d\nbody"
      = Except.ok (Json.obj [("x", Json.obj [("Mystery", Json.num 7)])], "body") ∧
    parse_asm "first bad input" = Except.error PyErr.valueError ∧
    parse_asm "second bad input" = Except.error PyErr.valueError :=
  ⟨rfl, rfl, rfl⟩

/-! C9. -/

theorem measLookupsSt_eq :
    ∀ (ks : List Json) (s : DeserializerState),
      measLookupsSt s ks = (List.mapM (measLookup s.measurements) ks, s) := by
  intro ks
  induction ks with
  | nil => intro s; rfl
  | cons k kt ih =>
      intro s
      rw [measLookupsSt]
      rw [List.mapM_cons]
      show (match (measLookup s.measurements k, s) with
        | (.error e, s1) => (Except.error e, s1)
        | (.ok b, s1) =>
            match measLookupsSt s1 kt with
            | (.error e, s2) => (Except.error e, s2)
            | (.ok bs, s2) => (Except.ok (b :: bs), s2)) = _
      cases hk : measLookup s.measurements k with
      | error e => rfl
      | ok b =>
          show (match measLookupsSt s kt with
            | (.error e, s2) => (Except.error e, s2)
            | (.ok bs, s2) => (Except.ok (b :: bs), s2)) = _
          rw [ih s]
          cases hr : List.mapM (measLookup s.measurements) kt with
          | error e => rfl
          | ok bs => rfl

theorem deserialize_q_unsignedSt_eq (s : DeserializerState) (data : Json) :
    deserialize_q_unsignedSt s data = (deserialize_q_unsigned s.measurements data, s) := by
  cases data with
  | arr qbs =>
      rw [deserialize_q_unsignedSt, measLookupsSt_eq qbs s]
      rfl
  | null => rfl
  | bool b => rfl
  | num n => rfl
  | str str => rfl
  | obj fields => rfl

theorem deserialize_unknown_eq (m : MeasMap) (typ : String) (data : Json)
    (tail : List (String × Json))
    (h1 : typ = "Bool" → False) (h2 : typ = "Q_Bool" → False)
    (h3 : typ = "Q_U8" → False) (h4 : typ = "Q_U16" → False)
    (h5 : typ = "Q_U32" → False) (h6 : typ = "Array" → False)
    (h7 : typ = "Measured" → False) :
    deserialize m (Json.obj ((typ, data) :: tail)) = deserialize_default data := by
  simp only [deserialize.eq_def]

theorem deserializeSt_unknown_eq (s : DeserializerState) (typ : String) (data : Json)
    (tail : List (String × Json))
    (h1 : typ = "Bool" → False) (h2 : typ = "Q_Bool" → False)
    (h3 : typ = "Q_U8" → False) (h4 : typ = "Q_U16" → False)
    (h5 : typ = "Q_U32" → False) (h6 : typ = "Array" → False)
    (h7 : typ = "Measured" → False) :
    deserializeSt s (Json.obj ((typ, data) :: tail)) = (deserialize_default data, s) := by
  simp only [deserializeSt.eq_def]

theorem deserializeSt_pair_eq :
    ∀ (s : DeserializerState) (a : Json),
      deserializeSt s a = (deserialize s.measurements a, s) := by
  refine deserializeSt.induct
    (fun s v => deserializeSt s v = (deserialize s.measurements v, s))
    (fun s items => deserialize_arraySt s items = (deserialize_array s.measurements items, s))
    ?_ ?_ ?_ ?_ ?_ ?_ ?_ ?_ ?_ ?_ ?_ ?_ ?_ ?_ ?_
  · intro s data tail
    rw [deserializeSt.eq_def, deserialize.eq_def]
    rfl
  · intro s data tail
    rw [deserializeSt.eq_def, deserialize.eq_def]
    rfl
  · intro s data tail
    rw [deserializeSt.eq_def, deserialize.eq_def]
    exact deserialize_q_unsignedSt_eq s data
  · intro s data tail
    rw [deserializeSt.eq_def, deserialize.eq_def]
    exact deserialize_q_unsignedSt_eq s data
  · intro s data tail
    rw [deserializeSt.eq_def, deserialize.eq_def]
    exact deserialize_q_unsignedSt_eq s data
  · intro s tail qbs r s1 heq ih
    rw [deserializeSt.eq_def, deserialize.eq_def]
    show (match deserialize_arraySt s qbs with
      | (r, s1) => (r.map Json.arr, s1)) = _
    rw [ih]
    rfl
  · intro s data tail hnot
    rw [deserializeSt.eq_def, deserialize.eq_def]
    cases data with
    | arr items => exact absurd rfl (hnot items)
    | null => rfl
    | bool b => rfl
    | num n => rfl
    | str str => rfl
    | obj fields => rfl
  · intro s data tail ih
    rw [deserializeSt.eq_def, deserialize.eq_def]
    exact ih
  · intro s typ data tail h1 h2 h3 h4 h5 h6 h7
    rw [deserializeSt_unknown_eq s typ data tail h1 h2 h3 h4 h5 h6 h7,
      deserialize_unknown_eq s.measurements typ data tail h1 h2 h3 h4 h5 h6 h7]
  · intro s
    rfl
  · intro t s h1 h2
    cases t with
    | obj fields =>
        cases fields with
        | nil => exact absurd rfl h2
        | cons kv rest => exact absurd rfl (h1 kv.1 kv.2 rest)
    | null => rfl
    | bool b => rfl
    | num n => rfl
    | str str => rfl
    | arr items => rfl
  · intro s
    rfl
  · intro s item rest e s1 heq ih
    rw [ih] at heq
    injection heq with hv hs
    rw [deserialize_arraySt.eq_def]
    show (match deserializeSt s item with
      | (.error e, s1) => (Except.error e, s1)
      | (.ok v, s1) =>
          match deserialize_arraySt s1 rest with
          | (.error e, s2) => (Except.error e, s2)
          | (.ok vs, s2) => (Except.ok (v :: vs), s2)) = _
    rw [ih, hv, deserialize_array_cons, hv, except_bind_error]
  · intro s item rest v s1 heq e s2 heq2 ih1 ih2
    rw [ih1] at heq
    injection heq with hv hs
    subst hs
    rw [ih2] at heq2
    injection heq2 with hr hs2
    rw [deserialize_arraySt.eq_def]
    show (match deserializeSt s item with
      | (.error e, s1) => (Except.error e, s1)
      | (.ok v, s1) =>
          match deserialize_arraySt s1 rest with
          | (.error e, s2) => (Except.error e, s2)
          | (.ok vs, s2) => (Except.ok (v :: vs), s2)) = _
    rw [ih1, hv]
    show (match deserialize_arraySt s rest with
      | (.error e, s2) => (Except.error e, s2)
      | (.ok vs, s2) => (Except.ok (v :: vs), s2)) = _
    rw [ih2, hr, deserialize_array_cons, hv, except_bind_ok, hr, except_bind_error]
  · intro s item rest v s1 heq vs s2 heq2 ih1 ih2
    rw [ih1] at heq
    injection heq with hv hs
    subst hs
    rw [ih2] at heq2
    injection heq2 with hr hs2
    rw [deserialize_arraySt.eq_def]
    show (match deserializeSt s item with
      | (.error e, s1) => (Except.error e, s1)
      | (.ok v, s1) =>
          match deserialize_arraySt s1 rest with
          | (.error e, s2) => (Except.error e, s2)
          | (.ok vs, s2) => (Except.ok (v :: vs), s2)) = _
    rw [ih1, hv]
    show (match deserialize_arraySt s rest with
      | (.error e, s2) => (Except.error e, s2)
      | (.ok vs, s2) => (Except.ok (v :: vs), s2)) = _
    rw [ih2, hr, deserialize_array_cons, hv, except_bind_ok, hr, except_bind_ok]

theorem run_bindingsSt_eq :
    ∀ (bs : List (String × Json)) (s : DeserializerState),
      run_bindingsSt s bs = (run_bindings s.measurements bs, s) := by
  intro bs
  induction bs with
  | nil =>
      intro s
      show (Except.ok [], s) = (run_bindings s.measurements [], s)
      rw [run_bindings_nil]
  | cons nv rest ih =>
      obtain ⟨n, v⟩ := nv
      intro s
      rw [run_bindingsSt]
      show (match deserializeSt s v with
        | (.error e, s1) => (Except.error e, s1)
        | (.ok w, s1) =>
            match run_bindingsSt s1 rest with
            | (.error e, s2) => (Except.error e, s2)
            | (.ok ws, s2) => (Except.ok ((n, w) :: ws), s2)) = _
      rw [deserializeSt_pair_eq s v, run_bindings_cons]
      cases hv : deserialize s.measurements v with
      | error e => rfl
      | ok w =>
          show (match run_bindingsSt s rest with
            | (.error e, s2) => (Except.error e, s2)
            | (.ok ws, s2) => (Except.ok ((n, w) :: ws), s2)) = _
          rw [ih s]
          cases hr : run_bindings s.measurements rest with
          | error e => rfl
          | ok ws => rfl

/-- C9: deserialize and the run assembly are pure functions of their inputs.
In the state-passing model of the Deserializer object, deserializing any
value and assembling any bindings list returns the state (the measurement
map, the only attribute touched) exactly as it was, and the returned result
is the value of the corresponding pure function of the input state and
value — so two calls with equal inputs produce equal results. -/
theorem c9_deserializer_pure :
    (∀ (s : DeserializerState) (v : Json),
        deserializeSt s v = (deserialize s.measurements v, s)) ∧
    (∀ (s : DeserializerState) (bs : List (String × Json)),
        run_bindingsSt s bs = (run_bindings s.measurements bs, s)) :=
  ⟨deserializeSt_pair_eq, fun s bs => run_bindingsSt_eq bs s⟩

end Pycavy
